import Mathlib

/-!
Verification of the Delhi Area Analyzer front-end logic (main.js).

Shallow embedding conventions:
* JavaScript numbers are modelled as exact rationals (ℚ); the numeric
  claims of the specification are stated and checked in exact arithmetic.
* DOM side effects (show/hide of panels, the rendered dropdown item list,
  the text of the error panel, the search input value) are modelled as
  fields of an explicit state record `UIState`; each JS helper method
  becomes a state-transforming function.
* A `fetch` call is modelled by a `FetchOutcome` value describing how the
  network responded: a network-level rejection with a message, or an HTTP
  response with a status code and a body that either parses to a value or
  rejects with a parse message.  A JS async function that can reject is
  embedded as a function into `Except String _`; a function whose
  try/catch handles every failure always returns `Except.ok`.
-/

/-- One search result object returned by `GET /api/search`. -/
structure SearchResult where
  location : String
  zone : String
  safety_rating : ℚ
  crime_level : String
deriving DecidableEq, Repr

/-- The detail object returned by `GET /api/location/<name>`. -/
structure LocationDetail where
  location : String
  zone : String
  crime_level : String
  safety_rating : ℚ
  crime_rating : ℚ
  total_crimes : ℕ
  water_clogging : Option String
  electricity_issues : Option String
  pros : List String
  cons : List String
deriving DecidableEq, Repr

/-- The observable state owned by the `DelhiAreaAnalyzer` controller:
its instance fields (`searchResults`, `selectedLocationIndex`) together
with the DOM state its helpers mutate.  `domItems` is the number of
`.search-result-item` nodes currently present in the dropdown markup
(what `querySelectorAll` returns); `detailRequests` logs the location
names for which a detail fetch was issued. -/
structure UIState where
  searchInputValue : String := ""
  dropdownVisible : Bool := false
  domItems : ℕ := 0
  searchResults : List SearchResult := []
  selectedLocationIndex : ℤ := -1
  loadingVisible : Bool := false
  detailsVisible : Bool := false
  errorVisible : Bool := false
  errorText : String := ""
  displayedDetail : Option LocationDetail := none
  detailRequests : List String := []
deriving DecidableEq, Repr

/-- Constructor state: `searchTimeout = null`, `selectedLocationIndex = -1`,
`searchResults = []`, every panel hidden. -/
def initState : UIState := {}

/-- Models `showDropdown()`. -/
def showDropdown (st : UIState) : UIState := { st with dropdownVisible := true }

/-- Models `hideDropdown()`. -/
def hideDropdown (st : UIState) : UIState := { st with dropdownVisible := false }

/-- Models `showLoading()`: shows the indicator and hides the detail panel. -/
def showLoading (st : UIState) : UIState :=
  { st with loadingVisible := true, detailsVisible := false }

/-- Models `hideLoading()`. -/
def hideLoading (st : UIState) : UIState := { st with loadingVisible := false }

/-- Models `showError(message)`: sets the error text, shows the error panel and
hides the detail panel.  It does not touch the dropdown. -/
def showError (st : UIState) (message : String) : UIState :=
  { st with errorText := message, errorVisible := true, detailsVisible := false }

/-- Models `hideError()`. -/
def hideError (st : UIState) : UIState := { st with errorVisible := false }

/-- Models `getSafetyColor(rating)`. -/
def getSafetyColor (rating : ℚ) : String :=
  if 8 ≤ rating then "bg-success"
  else if 6 ≤ rating then "bg-warning"
  else "bg-danger"

/-- The semantic tier named by the colour class `getSafetyColor` picks
(the spec speaks of tiers "high" / "medium" / "low"; the code encodes
them as the Bootstrap classes success / warning / danger). -/
def safetyTier (rating : ℚ) : String :=
  if getSafetyColor rating = "bg-success" then "high"
  else if getSafetyColor rating = "bg-warning" then "medium"
  else "low"

/-- Models `getCrimeColor(level)`: case-insensitive switch. -/
def getCrimeColor (level : String) : String :=
  if level.toLower = "low" then "bg-success"
  else if level.toLower = "medium" then "bg-warning"
  else if level.toLower = "high" then "bg-danger"
  else "bg-secondary"

/-- Models `displaySearchResults(results)`: stores the results, resets the
highlight to -1; on an empty list it only hides the dropdown (the
previously rendered items stay in the markup), otherwise it rewrites the
dropdown markup (one item per result) and shows it. -/
def displaySearchResults (st : UIState) (results : List SearchResult) : UIState :=
  let st1 := { st with searchResults := results, selectedLocationIndex := -1 }
  if results.length = 0 then hideDropdown st1
  else showDropdown { st1 with domItems := results.length }

/-- Models `selectLocation(index)`: guarded by `0 <= index < searchResults.length`;
inside the guard it copies the location name into the input, hides the
dropdown and issues a detail fetch for that name. -/
def selectLocation (st : UIState) (index : ℤ) : UIState :=
  if h : 0 ≤ index ∧ index < (st.searchResults.length : ℤ) then
    let loc := st.searchResults.get ⟨index.toNat, by omega⟩
    { st with
        searchInputValue := loc.location,
        dropdownVisible := false,
        detailRequests := st.detailRequests ++ [loc.location] }
  else st

/-- The keys handled by `handleKeyNavigation`. -/
inductive Key where
  | arrowDown
  | arrowUp
  | enter
  | escape
deriving DecidableEq, Repr

/-- Models `handleKeyNavigation(e)`: the clamping uses `items.length`, the number
of `.search-result-item` nodes found in the dropdown markup (`domItems`),
not `searchResults.length`. -/
def handleKeyNavigation (st : UIState) (k : Key) : UIState :=
  match k with
  | .arrowDown =>
      { st with selectedLocationIndex := min (st.selectedLocationIndex + 1) ((st.domItems : ℤ) - 1) }
  | .arrowUp =>
      { st with selectedLocationIndex := max (st.selectedLocationIndex - 1) (-1) }
  | .enter =>
      if 0 ≤ st.selectedLocationIndex then selectLocation st st.selectedLocationIndex
      else st
  | .escape => hideDropdown st

/-- How a `fetch` call resolved: a network-level rejection carrying the
engine message, or a response with an HTTP status whose `json()` body
either parses (`Except.ok`) or rejects with a parse message. -/
inductive FetchOutcome (α : Type) where
  | networkError (message : String)
  | response (status : ℕ) (body : Except String α)
deriving Repr

/-- Models `response.ok` of the Fetch API: status in 200..299. -/
def statusOk (status : ℕ) : Bool := decide (200 ≤ status ∧ status ≤ 299)

/-- The body of the try-block of `searchLocations`: throws `Search failed`
on a non-ok status, otherwise the parsed body (whose parse may itself
reject). -/
def searchInner (f : FetchOutcome (List SearchResult)) :
    Except String (List SearchResult) :=
  match f with
  | .networkError message => .error message
  | .response status body => if statusOk status then body else .error "Search failed"

/-- Models `searchLocations(query)` given the fetch outcome: the catch converts
every failure into `showError(...)`, so the function itself never
rejects (always `Except.ok`). -/
def searchLocations (st : UIState) (f : FetchOutcome (List SearchResult)) :
    Except String UIState :=
  Except.ok (match searchInner f with
    | .ok results => displaySearchResults st results
    | .error _ => showError st "Failed to search locations. Please try again.")

/-- The body of the try-block of `loadLocationDetails`: 404 throws
`Location not found`, any other non-ok status throws
`Failed to load location details`, an ok status yields the parsed body. -/
def detailInner (f : FetchOutcome LocationDetail) : Except String LocationDetail :=
  match f with
  | .networkError message => .error message
  | .response status body =>
      if statusOk status then body
      else if status = 404 then .error "Location not found"
      else .error "Failed to load location details"

/-- Models `displayLocationDetails(data)` (DOM population abstracted to storing
the detail and showing the panel). -/
def displayLocationDetails (st : UIState) (d : LocationDetail) : UIState :=
  { st with displayedDetail := some d, detailsVisible := true }

/-- Models `loadLocationDetails(name)` given the fetch outcome: shows the loading
indicator and hides the error panel first; the catch shows
`error.message`; the finally-block always hides the loading indicator.
The catch handles every failure, so the function never rejects. -/
def loadLocationDetails (st : UIState) (f : FetchOutcome LocationDetail) :
    Except String UIState :=
  let st1 := hideError (showLoading st)
  let st2 := match detailInner f with
    | .ok d => displayLocationDetails st1 d
    | .error message => showError st1 message
  Except.ok (hideLoading st2)

/-- The state touched by `handleSearchInput`: the single stored debounce
timer (`searchTimeout`, carrying the query its callback would search
for), the dropdown visibility, and a log of the search requests actually
issued by fired timers. -/
structure DebounceState where
  searchTimeout : Option String := none
  dropdownVisible : Bool := false
  issuedRequests : List String := []
deriving DecidableEq, Repr

/-- Models `handleSearchInput(query)`: always clears the stored timer first; a
query shorter than 2 characters just hides the dropdown; otherwise a new
timer is armed for this query. -/
def handleSearchInput (st : DebounceState) (query : String) : DebounceState :=
  let st1 := { st with searchTimeout := none }
  if query.length < 2 then { st1 with dropdownVisible := false }
  else { st1 with searchTimeout := some query }

/-- The armed debounce timer firing: issues the search request for the
query it was armed with (a cleared or absent timer does nothing). -/
def fireTimer (st : DebounceState) : DebounceState :=
  match st.searchTimeout with
  | none => st
  | some query =>
      { st with searchTimeout := none, issuedRequests := st.issuedRequests ++ [query] }

/-- The events the typeahead navigation claims quantify over: arrow and
other key presses, and a search response replacing the result list. -/
inductive NavEvent where
  | key (k : Key)
  | display (results : List SearchResult)

/-- One event step of the typeahead controller. -/
def stepEvent (st : UIState) (e : NavEvent) : UIState :=
  match e with
  | .key k => handleKeyNavigation st k
  | .display rs => displaySearchResults st rs

/-- The bound the code actually maintains for the highlight index: within
`[-1, domItems - 1]` where `domItems` counts the rendered dropdown
items. -/
def highlightInv (st : UIState) : Prop :=
  -1 ≤ st.selectedLocationIndex ∧ st.selectedLocationIndex ≤ (st.domItems : ℤ) - 1

instance (st : UIState) : Decidable (highlightInv st) := by
  unfold highlightInv; infer_instance

/-- A sample search result used for concrete instantiations. -/
def sampleResult : SearchResult := ⟨"Rohini", "North Delhi", 7, "Medium"⟩

/-- The parsed JSON result of `POST /calculate/<type>`.  The union of the
fields the renderer reads, with JSON-absent-or-zero defaulting to 0 (an
absent field is only read behind a type guard or a truthiness guard, so
the default never feeds a computation the code performs on real input). -/
structure CalcResult where
  principal : ℚ := 0
  emi : ℚ := 0
  total_interest : ℚ := 0
  total_payment : ℚ := 0
  max_emi : ℚ := 0
  affordable_loan : ℚ := 0
  affordable_property : ℚ := 0
  income : ℚ := 0
  expenses : ℚ := 0
  existing_emis : ℚ := 0
  remaining_income : ℚ := 0
  dti_ratio : ℚ := 0
  risk_level : String := ""
  debt : ℚ := 0
  gratuity : ℚ := 0
  corpus : ℚ := 0
  required_corpus : ℚ := 0
  statusText : String := ""
deriving DecidableEq, Repr

/-- The `chartData` record `submitForm` assembles before the pie stage. -/
structure ChartData where
  labels : List String
  data : List ℚ
  colors : List String
  total : ℚ
deriving DecidableEq, Repr

/-- The `html` summary string built by the type dispatch of `submitForm`
(template interpolation rendered as string concatenation). -/
def htmlFor (ctype : String) (result : CalcResult) : String :=
  if ctype = "emi" then
    "<h4>EMI Results:</h4><p><strong>Loan Principal:</strong> ₹" ++ toString result.principal
      ++ "</p><p><strong>Monthly EMI:</strong> ₹" ++ toString result.emi
      ++ "</p><p><strong>Total Interest:</strong> ₹" ++ toString result.total_interest
      ++ "</p><p><strong>Total Payment:</strong> ₹" ++ toString result.total_payment ++ "</p>"
  else if ctype = "affordability" then
    "<h4>Affordability Results:</h4><p><strong>Maximum EMI You Can Pay:</strong> ₹"
      ++ toString result.max_emi
      ++ "</p><p><strong>Estimated Affordable Loan Amount:</strong> ₹"
      ++ toString result.affordable_loan
      ++ "</p><p><strong>Estimated Affordable Property Value (with Down Payment):</strong> ₹"
      ++ toString result.affordable_property ++ "</p>"
  else if ctype = "dti" then
    "<h4>Debt-to-Income Ratio:</h4><p><strong>DTI Ratio:</strong> " ++ toString result.dti_ratio
      ++ "%</p><p><strong>Risk Level:</strong> " ++ result.risk_level ++ "</p>"
  else if ctype = "gratuity" then
    "<h4>Gratuity Calculation:</h4><p><strong>Gratuity Amount:</strong> ₹"
      ++ toString result.gratuity ++ "</p>"
  else if ctype = "retirement" then
    "<h4>Retirement Planning Results:</h4><p><strong>Estimated Corpus at Retirement:</strong> ₹"
      ++ toString result.corpus ++ "</p><p><strong>Required Corpus:</strong> ₹"
      ++ toString result.required_corpus ++ "</p><p><strong>Status:</strong> "
      ++ result.statusText ++ "</p>"
  else "<p>Invalid calculator type or error.</p>"

/-- The `chartData` value the type dispatch assigns: a dataset for the
affordability and dti types (remaining income clamped at zero in the
data, `total = income`), `null` for every other type. -/
def chartDataFor (ctype : String) (result : CalcResult) : Option ChartData :=
  if ctype = "affordability" then
    some ⟨["Expenses", "Existing EMIs", "Remaining Income"],
      [result.expenses, result.existing_emis,
        if result.remaining_income > 0 then result.remaining_income else 0],
      ["#f39c12", "#2980b9", "#27ae60"], result.income⟩
  else if ctype = "dti" then
    some ⟨["Debt", "Remaining Income"],
      [result.debt, if result.remaining_income > 0 then result.remaining_income else 0],
      ["#2980b9", "#27ae60"], result.income⟩
  else none

/-- The dataset finally handed to the pie chart. -/
structure PieDataset where
  labels : List String
  data : List ℚ
  colors : List String
deriving DecidableEq, Repr

/-- The pie stage of `submitForm`: drawn only when `chartData` exists and
`chartData.total > 0`; when the data sums to strictly less than the
total, one synthetic `Other/Unallocated` slice holding the residual is
appended.  `none` means the pie canvas is hidden and no dataset built. -/
def buildPie (cd : Option ChartData) : Option PieDataset :=
  match cd with
  | none => none
  | some c =>
      if c.total > 0 then
        let s := c.data.foldl (· + ·) 0
        if s < c.total then
          some ⟨c.labels ++ ["Other/Unallocated"], c.data ++ [c.total - s],
            c.colors ++ ["#bdc3c7"]⟩
        else some ⟨c.labels, c.data, c.colors⟩
      else none

/-- The bar stage of `submitForm`: only for the affordability type; the
four quantities with remaining income clamped at zero. -/
def buildBar (ctype : String) (result : CalcResult) : Option (List ℚ) :=
  if ctype = "affordability" then
    some [result.income, result.expenses, result.existing_emis,
      if result.remaining_income > 0 then result.remaining_income else 0]
  else none

/-- The three parallel arrays the amortization loop pushes into. -/
structure AmortArrays where
  principalData : List ℚ
  interestData : List ℚ
  labels : List ℕ
deriving DecidableEq, Repr

/-- The monthly rate: `parseFloat(body.rate) / (12 * 100)`. -/
def monthlyRate (ratePercent : ℚ) : ℚ := ratePercent / (12 * 100)

/-- The `for (let i = 1; i <= tenure; i++)` loop of the amortization
stage, recursing on the number of remaining periods: per period the
interest is `balance * rate`, the principal paid is `emi - interest`,
the balance is decremented by the raw (unclamped) principal paid, and
the recorded values are clamped at zero. -/
def amortLoop (emi rate : ℚ) : ℚ → ℕ → ℕ → AmortArrays
  | _, _, 0 => ⟨[], [], []⟩
  | balance, i, Nat.succ k =>
      let interest := balance * rate
      let principalPaid := emi - interest
      let rest := amortLoop emi rate (balance - principalPaid) (i + 1) k
      ⟨(if principalPaid > 0 then principalPaid else 0) :: rest.principalData,
       (if interest > 0 then interest else 0) :: rest.interestData,
       i :: rest.labels⟩

/-- The amortization schedule of an emi-type render: starting balance
`result.principal`, monthly rate from the form rate, `tenure` periods
starting at period 1. -/
def amortSchedule (principal emi : ℚ) (tenure : ℕ) (ratePercent : ℚ) : AmortArrays :=
  amortLoop emi (monthlyRate ratePercent) principal 1 tenure

/-- The amortization stage of `submitForm`: guarded by
`type === emi && result.emi && result.principal && result.total_interest`
(truthiness of a JS number = nonzero). -/
def buildAmort (ctype : String) (result : CalcResult) (tenure : ℕ) (ratePercent : ℚ) :
    Option AmortArrays :=
  if ctype = "emi" ∧ result.emi ≠ 0 ∧ result.principal ≠ 0 ∧ result.total_interest ≠ 0 then
    some (amortSchedule result.principal result.emi tenure ratePercent)
  else none

/-- Everything the renderer produces from a parsed result: the summary
html and the three optional chart datasets (`none` = that canvas hidden,
no dataset built). -/
structure RenderOutput where
  html : String
  pie : Option PieDataset
  bar : Option (List ℚ)
  amort : Option AmortArrays
deriving DecidableEq, Repr

/-- The rendering portion of `submitForm` applied to a parsed result;
`tenure` and `ratePercent` are the parsed `body.tenure` and `body.rate`
form fields the amortization stage reads. -/
def renderCalcResult (ctype : String) (result : CalcResult) (tenure : ℕ) (ratePercent : ℚ) :
    RenderOutput :=
  ⟨htmlFor ctype result, buildPie (chartDataFor ctype result), buildBar ctype result,
    buildAmort ctype result tenure ratePercent⟩

/-- Models `submitForm(type)` given the fetch outcome: the function has no
try/catch, so a rejected `fetch` or a rejected `res.json()` propagates
out of it (`Except.error`); note the code never checks `res.ok`, it
parses the body regardless of status. -/
def submitForm (ctype : String) (f : FetchOutcome CalcResult) (tenure : ℕ)
    (ratePercent : ℚ) : Except String RenderOutput :=
  match f with
  | .networkError message => .error message
  | .response _ body =>
      match body with
      | .error message => .error message
      | .ok result => .ok (renderCalcResult ctype result tenure ratePercent)

/-- The raw (unclamped) balance before period `k + 1`, as a closed
recurrence: `rawBalance emi rate b 0 = b` and each period subtracts the
raw principal paid `emi - balance * rate`. -/
def rawBalance (emi rate b : ℚ) : ℕ → ℚ
  | 0 => b
  | Nat.succ k =>
      let bk := rawBalance emi rate b k
      bk - (emi - bk * rate)

/-- C9: for every safety rating, a rating of at least 8 maps to the high
tier (colour class bg-success), a rating in [6, 8) maps to medium
(bg-warning), and a rating below 6 maps to low (bg-danger); in
particular 8.0 is high, 7.9 is medium and 5.9 is low — the boundaries
are exact. -/
theorem C9_safety_tier :
    ∀ rating : ℚ,
      (8 ≤ rating → getSafetyColor rating = "bg-success" ∧ safetyTier rating = "high") ∧
      (6 ≤ rating → rating < 8 → getSafetyColor rating = "bg-warning" ∧ safetyTier rating = "medium") ∧
      (rating < 6 → getSafetyColor rating = "bg-danger" ∧ safetyTier rating = "low") ∧
      safetyTier 8 = "high" ∧ safetyTier (79/10) = "medium" ∧ safetyTier (59/10) = "low" := by
  intro rating
  have e8 : getSafetyColor 8 = "bg-success" := by unfold getSafetyColor; norm_num
  have e79 : getSafetyColor (79/10) = "bg-warning" := by unfold getSafetyColor; norm_num
  have e59 : getSafetyColor (59/10) = "bg-danger" := by unfold getSafetyColor; norm_num
  refine ⟨fun h8 => ?_, fun h6 h8 => ?_, fun h6 => ?_,
    by unfold safetyTier; rw [e8]; decide, by unfold safetyTier; rw [e79]; decide,
    by unfold safetyTier; rw [e59]; decide⟩
  · have hcol : getSafetyColor rating = "bg-success" := by
      unfold getSafetyColor; rw [if_pos h8]
    exact ⟨hcol, by unfold safetyTier; rw [hcol]; decide⟩
  · have hcol : getSafetyColor rating = "bg-warning" := by
      unfold getSafetyColor; rw [if_neg (by linarith), if_pos h6]
    exact ⟨hcol, by unfold safetyTier; rw [hcol]; decide⟩
  · have hcol : getSafetyColor rating = "bg-danger" := by
      unfold getSafetyColor; rw [if_neg (by linarith), if_neg (by linarith)]
    exact ⟨hcol, by unfold safetyTier; rw [hcol]; decide⟩

/-- Witness for C9 at the boundary input 7.9. -/
theorem C9_safety_tier_witness :
    getSafetyColor (79/10) = "bg-warning" ∧ safetyTier (79/10) = "medium" :=
  (C9_safety_tier (79/10)).2.1 (by norm_num) (by norm_num)

/-- C10: calling `selectLocation` with any index outside
`[0, searchResults.length - 1]` is a complete no-op: the whole state —
input text, dropdown visibility, controller fields — is unchanged and no
detail fetch is logged. -/
theorem C10_select_out_of_range :
    ∀ (st : UIState) (index : ℤ),
      (index < 0 ∨ (st.searchResults.length : ℤ) ≤ index) →
      selectLocation st index = st := by
  intro st index h
  unfold selectLocation
  rw [dif_neg]
  omega

/-- Witness for C10: index 5 against a one-element result list. -/
theorem C10_select_out_of_range_witness :
    selectLocation { initState with searchResults := [sampleResult] } 5 =
      { initState with searchResults := [sampleResult] } :=
  C10_select_out_of_range _ 5 (Or.inr (by decide))

/-- C8: a submission whose type is not one of emi, affordability, dti,
gratuity, retirement renders the fixed fallback message and no pie, bar
or amortization dataset; the renderer is a total function, so no
exception is raised. -/
theorem C8_unknown_type :
    ∀ (ctype : String) (result : CalcResult) (tenure : ℕ) (ratePercent : ℚ),
      ctype ∉ (["emi", "affordability", "dti", "gratuity", "retirement"] : List String) →
      renderCalcResult ctype result tenure ratePercent =
        ⟨"<p>Invalid calculator type or error.</p>", none, none, none⟩ := by
  intro ctype result tenure ratePercent h
  simp only [List.mem_cons, List.not_mem_nil, or_false, not_or] at h
  obtain ⟨h1, h2, h3, h4, h5⟩ := h
  unfold renderCalcResult htmlFor chartDataFor buildPie buildBar buildAmort
  simp [h1, h2, h3, h4, h5]

/-- Witness for C8 at the concrete unknown type xyz. -/
theorem C8_unknown_type_witness :
    renderCalcResult "xyz" {} 0 0 =
      ⟨"<p>Invalid calculator type or error.</p>", none, none, none⟩ :=
  C8_unknown_type "xyz" {} 0 0 (by decide)

/-- C5 counterexample: the claim says all three remote operations catch
every failure, but `submitForm` has no try/catch: on a network-level
fetch rejection it propagates the exception to its caller instead of
converting it to a visible error message. -/
theorem C5_counterexample :
    submitForm "emi" (FetchOutcome.networkError "Failed to fetch") 36 (17/2) =
      Except.error "Failed to fetch" := rfl

/-- C5 amended: the search lookup and the detail lookup catch every
failure at the call site (they always resolve, never rejecting to the
caller); the calculator submission does not — a rejected fetch or a
rejected body parse propagates out of `submitForm` uncaught. -/
theorem C5_no_uncaught_amended :
    ∀ (st : UIState) (f : FetchOutcome (List SearchResult)) (g : FetchOutcome LocationDetail),
      (∃ st1, searchLocations st f = Except.ok st1) ∧
      (∃ st2, loadLocationDetails st g = Except.ok st2) := by
  intro st f g
  exact ⟨⟨_, rfl⟩, ⟨_, rfl⟩⟩

/-- C6 counterexample: the claim says a failed search leaves the dropdown
hidden, but the failure path only calls `showError`, which never touches
the dropdown.  Starting from a state where a previous successful search
left the dropdown visible, a failed search (HTTP 500) surfaces the error
message yet the dropdown is still visible. -/
theorem C6_counterexample :
    (searchLocations (displaySearchResults initState [sampleResult])
        (FetchOutcome.response 500 (Except.error "boom"))).toOption.map
      (fun s => (s.dropdownVisible, s.errorVisible, s.errorText)) =
    some (true, true, "Failed to search locations. Please try again.") := by
  decide

/-- C6 amended: on every failed search request (network error, non-2xx
status, or body parse rejection) the user-visible message
`Failed to search locations. Please try again.` is surfaced; the
dropdown visibility is left exactly as it was before the failure (it
ends hidden only if it was already hidden), and the detail panel is
hidden. -/
theorem C6_search_failure_amended :
    ∀ (st : UIState) (f : FetchOutcome (List SearchResult)),
      (searchInner f).isOk = false →
      searchLocations st f =
        Except.ok (showError st "Failed to search locations. Please try again.") ∧
      (showError st "Failed to search locations. Please try again.").errorVisible = true ∧
      (showError st "Failed to search locations. Please try again.").dropdownVisible =
        st.dropdownVisible := by
  intro st f h
  refine ⟨?_, rfl, rfl⟩
  unfold searchLocations
  cases hs : searchInner f with
  | ok v => rw [hs] at h; simp [Except.isOk, Except.toBool] at h
  | error e => rfl

/-- Witness for C6 amended: a network-level failure. -/
theorem C6_search_failure_amended_witness :
    searchLocations initState (FetchOutcome.networkError "Failed to fetch") =
      Except.ok (showError initState "Failed to search locations. Please try again.") :=
  (C6_search_failure_amended initState (FetchOutcome.networkError "Failed to fetch")
    (by decide)).1

/-- C7 counterexample: the claim says every detail-lookup failure other
than 404 produces the message `Failed to load location details`, but the
catch shows `error.message`: on a network-level rejection the surfaced
text is the raw engine message (here `Failed to fetch`), not the fixed
one.  (The loading indicator is cleared, as the claim also states.) -/
theorem C7_counterexample :
    ((loadLocationDetails initState (FetchOutcome.networkError "Failed to fetch")).toOption.map
      (fun s => (s.errorText, s.errorVisible, s.loadingVisible)) =
      some ("Failed to fetch", true, false)) ∧
    ("Failed to fetch" : String) ≠ "Failed to load location details" := by
  constructor
  · decide
  · decide

/-- C7 amended: on a detail lookup, a 404 response surfaces the distinct
message `Location not found`; any other non-2xx HTTP response surfaces
`Failed to load location details` (the two messages are distinct); a
failure outside the status check (network-level rejection) surfaces the
underlying error message instead of the fixed text; and the loading
indicator ends cleared on every outcome, success or failure. -/
theorem C7_detail_errors_amended :
    ∀ (st : UIState) (g : FetchOutcome LocationDetail) (status : ℕ)
      (body : Except String LocationDetail) (message : String),
      ((loadLocationDetails st g).toOption.map (fun s => s.loadingVisible) = some false) ∧
      (statusOk status = false → status = 404 →
        loadLocationDetails st (FetchOutcome.response status body) =
          Except.ok (hideLoading (showError (hideError (showLoading st)) "Location not found"))) ∧
      (statusOk status = false → status ≠ 404 →
        loadLocationDetails st (FetchOutcome.response status body) =
          Except.ok (hideLoading (showError (hideError (showLoading st))
            "Failed to load location details"))) ∧
      (loadLocationDetails st (FetchOutcome.networkError message) =
        Except.ok (hideLoading (showError (hideError (showLoading st)) message))) ∧
      ("Location not found" : String) ≠ "Failed to load location details" := by
  intro st g status body message
  refine ⟨?_, fun hok h404 => ?_, fun hok h404 => ?_, rfl, by decide⟩
  · unfold loadLocationDetails
    cases detailInner g <;> rfl
  · subst h404
    simp [loadLocationDetails, detailInner, statusOk]
  · simp [loadLocationDetails, detailInner, hok, h404]

/-- Witness for C7 amended: a 404 response. -/
theorem C7_detail_errors_amended_witness :
    loadLocationDetails initState (FetchOutcome.response 404 (Except.error "json")) =
      Except.ok (hideLoading (showError (hideError (showLoading initState))
        "Location not found")) :=
  (C7_detail_errors_amended initState (FetchOutcome.response 404 (Except.error "json"))
    404 (Except.error "json") "m").2.1 (by decide) rfl


/-- Fact: `selectLocation` never changes the highlight index or the rendered
item count. -/
theorem selectLocation_preserves_nav (st : UIState) (index : ℤ) :
    (selectLocation st index).selectedLocationIndex = st.selectedLocationIndex ∧
    (selectLocation st index).domItems = st.domItems := by
  unfold selectLocation
  split <;> exact ⟨rfl, rfl⟩

/-- After `displaySearchResults` the highlight index is -1. -/
theorem displaySearchResults_idx (st : UIState) (rs : List SearchResult) :
    (displaySearchResults st rs).selectedLocationIndex = -1 := by
  unfold displaySearchResults
  split <;> rfl

/-- One controller event preserves the bound the code maintains. -/
theorem stepEvent_preserves_inv (st : UIState) (e : NavEvent) (h : highlightInv st) :
    highlightInv (stepEvent st e) := by
  obtain ⟨h1, h2⟩ := h
  unfold highlightInv
  cases e with
  | display rs =>
      have hidx : (stepEvent st (NavEvent.display rs)).selectedLocationIndex = -1 :=
        displaySearchResults_idx st rs
      omega
  | key k =>
      cases k with
      | arrowDown =>
          show -1 ≤ min (st.selectedLocationIndex + 1) ((st.domItems : ℤ) - 1) ∧
            min (st.selectedLocationIndex + 1) ((st.domItems : ℤ) - 1) ≤ (st.domItems : ℤ) - 1
          omega
      | arrowUp =>
          show -1 ≤ max (st.selectedLocationIndex - 1) (-1) ∧
            max (st.selectedLocationIndex - 1) (-1) ≤ (st.domItems : ℤ) - 1
          omega
      | enter =>
          show highlightInv (if 0 ≤ st.selectedLocationIndex then
            selectLocation st st.selectedLocationIndex else st)
          split
          · obtain ⟨hpi, hpd⟩ := selectLocation_preserves_nav st st.selectedLocationIndex
            unfold highlightInv
            omega
          · exact ⟨h1, h2⟩
      | escape => exact ⟨h1, h2⟩

/-- The bound is preserved along any event sequence. -/
theorem foldl_stepEvent_inv (evs : List NavEvent) :
    ∀ st : UIState, highlightInv st → highlightInv (evs.foldl stepEvent st) := by
  induction evs with
  | nil => intro st h; exact h
  | cons e evs ih =>
      intro st h
      rw [List.foldl_cons]
      exact ih _ (stepEvent_preserves_inv st e h)

/-- C2 counterexample: the claim says the highlight index always stays in
`[-1, results.length - 1]`, including for an empty result list.  But an
empty search response makes `displaySearchResults` hide the dropdown
without re-rendering its markup, so the previously rendered item nodes
remain and the ArrowDown clamp (which counts rendered items) moves the
index to 0 while `searchResults` is empty: after displaying one result,
then an empty response, then one ArrowDown, the index is 0, above the
claimed bound `results.length - 1 = -1`. -/
theorem C2_counterexample :
    (stepEvent (stepEvent (stepEvent initState (NavEvent.display [sampleResult]))
        (NavEvent.display [])) (NavEvent.key Key.arrowDown)).searchResults.length = 0 ∧
    (stepEvent (stepEvent (stepEvent initState (NavEvent.display [sampleResult]))
        (NavEvent.display [])) (NavEvent.key Key.arrowDown)).selectedLocationIndex = 0 ∧
    ¬ (stepEvent (stepEvent (stepEvent initState (NavEvent.display [sampleResult]))
        (NavEvent.display [])) (NavEvent.key Key.arrowDown)).selectedLocationIndex ≤
      ((stepEvent (stepEvent (stepEvent initState (NavEvent.display [sampleResult]))
        (NavEvent.display [])) (NavEvent.key Key.arrowDown)).searchResults.length : ℤ) - 1 := by
  refine ⟨rfl, rfl, by decide⟩

/-- C2 amended: after any number of ArrowUp/ArrowDown (or other key)
events and search-response replacements, the highlight index is always
in `[-1, renderedItems - 1]`, where `renderedItems` is the number of
dropdown items last rendered into the markup; the index is reset to -1
whenever results are replaced by a search response; and the rendered
item count equals `results.length` whenever the arriving result list is
nonempty — an empty response hides the dropdown but leaves the stale
items, which is the only way the index can exceed `results.length - 1`. -/
theorem C2_highlight_bounds_amended :
    (∀ evs : List NavEvent, highlightInv (evs.foldl stepEvent initState)) ∧
    (∀ (st : UIState) (rs : List SearchResult),
      (displaySearchResults st rs).selectedLocationIndex = -1) ∧
    (∀ (st : UIState) (rs : List SearchResult), rs ≠ [] →
      (displaySearchResults st rs).domItems = rs.length ∧
      (displaySearchResults st rs).searchResults = rs) := by
  refine ⟨fun evs => foldl_stepEvent_inv evs initState (by decide),
    displaySearchResults_idx, fun st rs h => ?_⟩
  unfold displaySearchResults
  rw [if_neg (by simpa using h)]
  exact ⟨rfl, rfl⟩

/-- Witness for C2 amended: a nonempty response renders one item per
result. -/
theorem C2_highlight_bounds_amended_witness :
    (displaySearchResults initState [sampleResult]).domItems = 1 :=
  (C2_highlight_bounds_amended.2.2 initState [sampleResult] (by decide)).1

/-- Fact: `handleSearchInput` never issues a request itself. -/
theorem handleSearchInput_requests (st : DebounceState) (query : String) :
    (handleSearchInput st query).issuedRequests = st.issuedRequests := by
  unfold handleSearchInput
  split <;> rfl

/-- A query of length at least 2 arms the timer for exactly that query,
replacing whatever timer was armed before. -/
theorem handleSearchInput_timer_long (st : DebounceState) (query : String)
    (h : 2 ≤ query.length) : (handleSearchInput st query).searchTimeout = some query := by
  unfold handleSearchInput
  rw [if_neg (by omega)]

/-- Over a burst of query changes with no timer fire in between, no
request is issued and the timer ends armed with the last query. -/
theorem debounce_foldl (qs : List String) :
    ∀ st : DebounceState, (∀ q ∈ qs, 2 ≤ q.length) →
      (qs.foldl handleSearchInput st).issuedRequests = st.issuedRequests ∧
      (qs ≠ [] → (qs.foldl handleSearchInput st).searchTimeout = qs.getLast?) := by
  induction qs with
  | nil => intro st _; exact ⟨rfl, fun h => absurd rfl h⟩
  | cons q qs ih =>
      intro st hlen
      have hq : 2 ≤ q.length := hlen q (List.mem_cons_self q qs)
      have hrest := ih (handleSearchInput st q) (fun x hx => hlen x (List.mem_cons_of_mem q hx))
      refine ⟨by rw [List.foldl_cons, hrest.1, handleSearchInput_requests], fun _ => ?_⟩
      cases qs with
      | nil =>
          rw [List.foldl_cons, List.foldl_nil, handleSearchInput_timer_long st q hq]
          rfl
      | cons r rs =>
          rw [List.foldl_cons, hrest.2 (by simp), List.getLast?_cons_cons]

/-- C3: for every burst of query changes within the debounce window, each
of length at least 2, at most one search request is issued, and the one
the armed timer fires carries the last query of the burst (each change
cancels the previously armed timer); a subsequent fire is a no-op; and a
query change of length below 2 cancels the pending timer and hides the
dropdown without issuing any request. -/
theorem C3_debounce :
    ∀ (st : DebounceState) (qs : List String),
      qs ≠ [] → (∀ q ∈ qs, 2 ≤ q.length) →
      (qs.foldl handleSearchInput st).issuedRequests = st.issuedRequests ∧
      (∃ lastq, qs.getLast? = some lastq ∧
        (qs.foldl handleSearchInput st).searchTimeout = some lastq ∧
        (fireTimer (qs.foldl handleSearchInput st)).issuedRequests =
          st.issuedRequests ++ [lastq] ∧
        fireTimer (fireTimer (qs.foldl handleSearchInput st)) =
          fireTimer (qs.foldl handleSearchInput st)) ∧
      (∀ short : String, short.length < 2 →
        (handleSearchInput (qs.foldl handleSearchInput st) short).searchTimeout = none ∧
        (handleSearchInput (qs.foldl handleSearchInput st) short).dropdownVisible = false ∧
        (fireTimer (handleSearchInput (qs.foldl handleSearchInput st) short)).issuedRequests =
          st.issuedRequests) := by
  intro st qs hne hlen
  obtain ⟨hreq, htimer⟩ := debounce_foldl qs st hlen
  have htimer := htimer hne
  obtain ⟨lastq, hlast⟩ : ∃ lastq, qs.getLast? = some lastq := by
    cases h : qs.getLast? with
    | none => exact absurd (List.getLast?_eq_none_iff.mp h) hne
    | some x => exact ⟨x, rfl⟩
  refine ⟨hreq, ⟨lastq, hlast, by rw [htimer, hlast], ?_, ?_⟩, fun short hshort => ?_⟩
  · unfold fireTimer
    rw [htimer, hlast]
    simp [hreq]
  · unfold fireTimer
    rw [htimer, hlast]
  · have hcancel : (handleSearchInput (qs.foldl handleSearchInput st) short).searchTimeout = none ∧
        (handleSearchInput (qs.foldl handleSearchInput st) short).dropdownVisible = false := by
      unfold handleSearchInput
      rw [if_pos hshort]
      exact ⟨rfl, rfl⟩
    refine ⟨hcancel.1, hcancel.2, ?_⟩
    unfold fireTimer
    rw [hcancel.1, handleSearchInput_requests, hreq]

/-- Witness for C3: the burst de, del followed by the timer firing issues
exactly the single request del. -/
theorem C3_debounce_witness :
    (fireTimer ((["de", "del"]).foldl handleSearchInput {})).issuedRequests = ["del"] := by
  obtain ⟨-, ⟨lastq, hlast, -, hfire, -⟩, -⟩ :=
    C3_debounce {} ["de", "del"] (by decide) (by decide)
  have : lastq = "del" := by
    have h : (["de", "del"] : List String).getLast? = some "del" := rfl
    rw [h] at hlast
    exact (Option.some.injEq _ _ ▸ hlast).symm
  rw [hfire, this]
  rfl

/-- Unfolding `rawBalance` from the front: the balance after `k + 1`
periods from `b` equals the balance after `k` periods from the balance
left by one period on `b`. -/
theorem rawBalance_shift (emi rate b : ℚ) (k : ℕ) :
    rawBalance emi rate b (k + 1) = rawBalance emi rate (b - (emi - b * rate)) k := by
  induction k with
  | zero => rfl
  | succ k ih =>
      rw [show rawBalance emi rate b (k + 1 + 1) =
        rawBalance emi rate b (k + 1) - (emi - rawBalance emi rate b (k + 1) * rate) from rfl]
      rw [ih]
      rfl

/-- The loop produces one entry per period in all three arrays. -/
theorem amortLoop_length (emi rate : ℚ) (n : ℕ) :
    ∀ (b : ℚ) (i : ℕ),
      (amortLoop emi rate b i n).principalData.length = n ∧
      (amortLoop emi rate b i n).interestData.length = n ∧
      (amortLoop emi rate b i n).labels.length = n := by
  induction n with
  | zero => intro b i; exact ⟨rfl, rfl, rfl⟩
  | succ k ih =>
      intro b i
      obtain ⟨hp, hi, hl⟩ := ih (b - (emi - b * rate)) (i + 1)
      unfold amortLoop
      exact ⟨by simpa using hp, by simpa using hi, by simpa using hl⟩

/-- Entry `k` of the loop records the clamped interest and principal of
the raw balance recurrence, and period label `i + k`. -/
theorem amortLoop_get (emi rate : ℚ) (n : ℕ) :
    ∀ (b : ℚ) (i k : ℕ), k < n →
      (amortLoop emi rate b i n).interestData.get? k =
        some (if 0 < rawBalance emi rate b k * rate then rawBalance emi rate b k * rate else 0) ∧
      (amortLoop emi rate b i n).principalData.get? k =
        some (if 0 < emi - rawBalance emi rate b k * rate then
          emi - rawBalance emi rate b k * rate else 0) ∧
      (amortLoop emi rate b i n).labels.get? k = some (i + k) := by
  induction n with
  | zero => intro b i k hk; omega
  | succ m ih =>
      intro b i k hk
      cases k with
      | zero =>
          refine ⟨?_, ?_, ?_⟩ <;> simp [amortLoop, rawBalance]
      | succ k =>
          have hk' : k < m := by omega
          obtain ⟨hi', hp', hl'⟩ := ih (b - (emi - b * rate)) (i + 1) k hk'
          refine ⟨?_, ?_, ?_⟩
          · rw [show (amortLoop emi rate b i (m + 1)).interestData =
              (if 0 < b * rate then b * rate else 0) ::
                (amortLoop emi rate (b - (emi - b * rate)) (i + 1) m).interestData from rfl]
            rw [List.get?_cons_succ, hi', rawBalance_shift]
          · rw [show (amortLoop emi rate b i (m + 1)).principalData =
              (if 0 < emi - b * rate then emi - b * rate else 0) ::
                (amortLoop emi rate (b - (emi - b * rate)) (i + 1) m).principalData from rfl]
            rw [List.get?_cons_succ, hp', rawBalance_shift]
          · rw [show (amortLoop emi rate b i (m + 1)).labels =
              i :: (amortLoop emi rate (b - (emi - b * rate)) (i + 1) m).labels from rfl]
            rw [List.get?_cons_succ, hl']
            exact congrArg some (by omega)

/-- C1: for every emi-type render with principal P, emi E, tenure n and
annual rate percent r, the schedule uses monthly rate `r / (12 * 100)`,
starts from balance P, and for each period records the clamped interest
`balance * m` and clamped principal `E - interest` while the balance
itself decays by the raw (unclamped) principal, producing exactly n
points labelled 1..n in period order; on the concrete inputs
P = 100000, E = 5000, n = 3, r = 12 the recorded (interest, principal)
points are (1000, 4000), (960, 4040), (919.6, 4080.4). -/
theorem C1_amortization_schedule :
    ∀ (P E ratePercent : ℚ) (n : ℕ),
      (amortSchedule P E n ratePercent).principalData.length = n ∧
      (amortSchedule P E n ratePercent).interestData.length = n ∧
      (amortSchedule P E n ratePercent).labels.length = n ∧
      (∀ k, k < n →
        (amortSchedule P E n ratePercent).interestData.get? k =
          some (if 0 < rawBalance E (monthlyRate ratePercent) P k * monthlyRate ratePercent then
            rawBalance E (monthlyRate ratePercent) P k * monthlyRate ratePercent else 0) ∧
        (amortSchedule P E n ratePercent).principalData.get? k =
          some (if 0 < E - rawBalance E (monthlyRate ratePercent) P k * monthlyRate ratePercent then
            E - rawBalance E (monthlyRate ratePercent) P k * monthlyRate ratePercent else 0) ∧
        (amortSchedule P E n ratePercent).labels.get? k = some (1 + k)) ∧
      amortSchedule 100000 5000 3 12 =
        ⟨[4000, 4040, 20402/5], [1000, 960, 4598/5], [1, 2, 3]⟩ := by
  intro P E ratePercent n
  obtain ⟨hp, hi, hl⟩ := amortLoop_length E (monthlyRate ratePercent) n P 1
  refine ⟨hp, hi, hl, fun k hk => amortLoop_get E (monthlyRate ratePercent) n P 1 k hk, ?_⟩
  show amortLoop 5000 (monthlyRate 12) 100000 1 3 = ⟨[4000, 4040, 20402/5], [1000, 960, 4598/5], [1, 2, 3]⟩
  norm_num [amortLoop, monthlyRate]

/-- Witness for C1: period 3 of the concrete schedule records interest
919.6. -/
theorem C1_amortization_schedule_witness :
    (amortSchedule 100000 5000 3 12).interestData.get? 2 =
      some (if 0 < rawBalance 5000 (monthlyRate 12) 100000 2 * monthlyRate 12 then
        rawBalance 5000 (monthlyRate 12) 100000 2 * monthlyRate 12 else 0) :=
  ((C1_amortization_schedule 100000 5000 12 3).2.2.2.1 2 (by omega)).1

/-- The pie-completion step: when the total is positive and the data sum
falls strictly short of it, the residual slice is appended and the
completed data sums exactly to the total. -/
theorem buildPie_append (c : ChartData) (hpos : 0 < c.total)
    (hlt : c.data.foldl (· + ·) 0 < c.total) :
    buildPie (some c) = some ⟨c.labels ++ ["Other/Unallocated"],
      c.data ++ [c.total - c.data.foldl (· + ·) 0], c.colors ++ ["#bdc3c7"]⟩ ∧
    (c.data ++ [c.total - c.data.foldl (· + ·) 0]).foldl (· + ·) 0 = c.total := by
  constructor
  · rw [show buildPie (some c) = if 0 < c.total then
        (if c.data.foldl (· + ·) 0 < c.total then
          some ⟨c.labels ++ ["Other/Unallocated"],
            c.data ++ [c.total - c.data.foldl (· + ·) 0], c.colors ++ ["#bdc3c7"]⟩
        else some ⟨c.labels, c.data, c.colors⟩) else none from rfl]
    rw [if_pos hpos, if_pos hlt]
  · rw [List.foldl_append]
    show c.data.foldl (· + ·) 0 + (c.total - c.data.foldl (· + ·) 0) = c.total
    ring

/-- C4 counterexample: the claim quantifies over every affordability or
dti result whose income exceeds the sum of the category amounts, but the
pie stage is guarded by `chartData.total > 0`: for an affordability
result with income 0 and expenses -10 the category sum (-10) is strictly
below the income (0), yet no pie dataset is produced at all, so no
synthetic slice is appended. -/
theorem C4_counterexample :
    chartDataFor "affordability" { income := 0, expenses := -10 } =
      some ⟨["Expenses", "Existing EMIs", "Remaining Income"], [-10, 0, 0],
        ["#f39c12", "#2980b9", "#27ae60"], 0⟩ ∧
    (([-10, 0, 0] : List ℚ).foldl (· + ·) 0 <
      ({ income := 0, expenses := -10 } : CalcResult).income) ∧
    buildPie (chartDataFor "affordability" { income := 0, expenses := -10 }) = none := by
  refine ⟨by decide, by norm_num [List.foldl_cons, List.foldl_nil], by decide⟩

/-- C4 amended: for every affordability or dti result, the chart dataset
carries `total = income` and its last data entry is the remaining income
clamped at zero (the raw signed `remaining_income` field is left
untouched for the summary text); provided the income is positive — the
pie is only drawn when `total > 0` — and the category amounts sum to
strictly less than the income, the pie dataset gets exactly one
synthetic `Other/Unallocated` category holding the residual
`income - sum`, making the pie total equal to the income. -/
theorem C4_pie_completion_amended :
    ∀ (result : CalcResult) (ctype : String), ctype = "affordability" ∨ ctype = "dti" →
      ∃ c, chartDataFor ctype result = some c ∧
        c.total = result.income ∧
        c.data.getLast? =
          some (if result.remaining_income > 0 then result.remaining_income else 0) ∧
        (0 < result.income → c.data.foldl (· + ·) 0 < result.income →
          buildPie (chartDataFor ctype result) =
            some ⟨c.labels ++ ["Other/Unallocated"],
              c.data ++ [result.income - c.data.foldl (· + ·) 0],
              c.colors ++ ["#bdc3c7"]⟩ ∧
          (c.data ++ [result.income - c.data.foldl (· + ·) 0]).foldl (· + ·) 0 =
            result.income) := by
  intro result ctype h
  rcases h with h | h <;> subst h
  · exact ⟨_, rfl, rfl, rfl, fun hinc hsum => buildPie_append _ hinc hsum⟩
  · exact ⟨_, rfl, rfl, rfl, fun hinc hsum => buildPie_append _ hinc hsum⟩

/-- The affordability example of the spec: income 100000, expenses 30000,
existing EMIs 20000, remaining income 40000 (category sum 90000). -/
def c4Sample : CalcResult :=
  { income := 100000, expenses := 30000, existing_emis := 20000, remaining_income := 40000 }

/-- Witness for C4 amended: the shortfall example appends a residual
Other/Unallocated slice of 10000. -/
theorem C4_pie_completion_amended_witness :
    buildPie (chartDataFor "affordability" c4Sample) =
      some ⟨["Expenses", "Existing EMIs", "Remaining Income", "Other/Unallocated"],
        [30000, 20000, 40000, 10000], ["#f39c12", "#2980b9", "#27ae60", "#bdc3c7"]⟩ := by
  obtain ⟨c, hcd, htot, hlast, himp⟩ :=
    C4_pie_completion_amended c4Sample "affordability" (Or.inl rfl)
  have hc : c = ⟨["Expenses", "Existing EMIs", "Remaining Income"], [30000, 20000, 40000],
      ["#f39c12", "#2980b9", "#27ae60"], 100000⟩ := by
    have hval : chartDataFor "affordability" c4Sample =
        some ⟨["Expenses", "Existing EMIs", "Remaining Income"], [30000, 20000, 40000],
          ["#f39c12", "#2980b9", "#27ae60"], 100000⟩ := by decide
    rw [hval] at hcd
    exact (Option.some.inj hcd).symm
  subst hc
  obtain ⟨hpie, -⟩ := himp (by norm_num [c4Sample])
    (by norm_num [c4Sample, List.foldl_cons, List.foldl_nil])
  rw [hpie]
  norm_num [c4Sample, List.foldl_cons, List.foldl_nil]
